import Mathlib

/-
Verification development for the pg_pandas extension.

The shared-memory protocol lives in two C files:
  * pg_pandas.c        — backend side: `_PG_init` (configuration + shared memory
    setup) and `pg_pandas_fn` (the SQL-callable set-returning function that
    submits a request and reads back the result).
  * pg_pandas_worker.c — worker side: `pg_pandas_worker_main`, a loop that
    polls the shared slot, runs the Python transformation, and writes back.

Byte buffers are modelled as lists of natural numbers (one per byte); the
fixed C arrays `data[8192]`, `operation[2048]`, `result[65536]` become lists
whose relevant prefix is manipulated exactly as the C `memcpy`/`strncpy`
calls do.  Stateful code becomes explicit state passing on the record type
`PandasSharedData`, mirroring the C struct of the same name.
-/

namespace PgPandas

/-- Capacity of the `data` buffer, from `char data[8192]` in `PandasSharedData`
(pg_pandas.c line 23). -/
def DATA_CAPACITY : Nat := 8192

/-- Capacity of the `operation` buffer, from `char operation[2048]`
(pg_pandas.c line 24). -/
def OPERATION_CAPACITY : Nat := 2048

/-- Capacity of the `result` buffer, from `char result[65536]`
(pg_pandas.c line 25). -/
def RESULT_CAPACITY : Nat := 65536

/-- The shared-memory struct `PandasSharedData` (pg_pandas.c lines 22-29 and
identically pg_pandas_worker.c lines 25-32): three fixed byte buffers, the
boolean `ready` flag, the boolean `terminate` flag.  The `LWLock lock` field
is a synchronization primitive, not data, and is modelled by the lock
annotations on the event traces below. -/
structure PandasSharedData where
  data : List Nat
  operation : List Nat
  result : List Nat
  ready : Bool
  terminate : Bool
deriving DecidableEq

/-- C `memcpy(dst, src, n)` on a byte buffer: the first `n` bytes are replaced
by the first `n` bytes of `src`, every byte past `n` keeps its old value. -/
def memcpy (dst src : List Nat) (n : Nat) : List Nat :=
  src.take n ++ dst.drop n

/-- Reading a buffer as a NUL-terminated C string (`CStringGetTextDatum` on
the backend side): the bytes before the first zero byte. -/
def cstring (buf : List Nat) : List Nat :=
  buf.takeWhile (fun b => b != 0)

/-- The error reports `pg_pandas_fn` can raise on the submission path
(pg_pandas.c lines 114-138): `workerBusy` is the ereport at line 117
("pg_pandas worker is busy"), `dataTooLarge` at line 131, `operationTooLarge`
at line 137. -/
inductive SubmitError
  | workerBusy
  | dataTooLarge
  | operationTooLarge
deriving DecidableEq

/-- The error report on the result-reading path of `pg_pandas_fn`
(pg_pandas.c line 159, "pg_pandas operation not completed"). -/
inductive ReadError
  | notCompleted
deriving DecidableEq

/-- The state produced by the successful submission branch of `pg_pandas_fn`
(pg_pandas.c lines 140-142): `memcpy` of the payloads into the slot buffers
followed by `ready = false`. -/
def submit_ok_state (s : PandasSharedData) (input operation : List Nat) :
    PandasSharedData :=
  { s with
    data := memcpy s.data input input.length
    operation := memcpy s.operation operation operation.length
    ready := false }

/-- The submission half of `pg_pandas_fn` (pg_pandas.c lines 111-145), in
source order: if `!ready` raise "worker is busy"; if
`data_len >= sizeof(data)` raise the input-size error; if
`operation_len >= sizeof(operation)` raise the operation-size error;
otherwise copy both payloads and clear `ready`.  Both size checks precede
both copies, exactly as in the C code. -/
def pg_pandas_submit (s : PandasSharedData) (input operation : List Nat) :
    Except SubmitError PandasSharedData :=
  if s.ready = false then Except.error SubmitError.workerBusy
  else if DATA_CAPACITY ≤ input.length then Except.error SubmitError.dataTooLarge
  else if OPERATION_CAPACITY ≤ operation.length then
    Except.error SubmitError.operationTooLarge
  else Except.ok (submit_ok_state s input operation)

/-- The result-reading half of `pg_pandas_fn` (pg_pandas.c lines 153-167):
one read of the `ready` flag under the shared lock; if it is still false
raise "pg_pandas operation not completed", otherwise return the `result`
buffer as a text value.  There is no loop and no sleep around this read in
the source. -/
def pg_pandas_read_result (s : PandasSharedData) :
    Except ReadError (List Nat) :=
  if s.ready = false then Except.error ReadError.notCompleted
  else Except.ok (cstring s.result)

/-- `funcctx->max_calls = 1` (pg_pandas.c line 102). -/
def srf_max_calls : Nat := 1

/-- The per-call body of the set-returning function (pg_pandas.c lines
149-176): when `call_cntr < 1` return the next (single) row, otherwise
`SRF_RETURN_DONE`. -/
def pg_pandas_call (s : PandasSharedData) (call_cntr : Nat) :
    Option (Except ReadError (List Nat)) :=
  if call_cntr < 1 then some (pg_pandas_read_result s) else none

/-- Outcome of the external Python transformation as observed by the worker
(pg_pandas_worker.c lines 174-202): `pyError` is `PyRun_String` returning
NULL (line 175), `retrieveError` is `PyObject_CallMethod` returning NULL
(line 187), `ok r` is a successful retrieval of the NUL-free UTF-8 result
string `r`. -/
inductive ExecOutcome
  | pyError
  | retrieveError
  | ok (result_str : List Nat)
deriving DecidableEq

/-- The effect of `strncpy(result, result_str, sizeof(result) - 1)` followed
by `result[sizeof(result) - 1] = 0` (pg_pandas_worker.c lines 198-199):
the first 65535 bytes become the first 65535 bytes of the source padded with
zero bytes, and the last byte is set to zero. -/
def strncpy_result (src : List Nat) : List Nat :=
  (src.take (RESULT_CAPACITY - 1)
    ++ List.replicate (RESULT_CAPACITY - 1 - min src.length (RESULT_CAPACITY - 1)) 0)
    ++ [0]

/-- The processing branch of the worker loop body, executed after the worker
has observed `ready` set (pg_pandas_worker.c lines 138-208): reset `ready`
to false (line 145), run the transformation, then
  * on `PyRun_String` failure: log, set `ready = true`, continue — the
    `result` buffer is not written (lines 175-183);
  * on result-retrieval failure: log, set `ready = true` — the `result`
    buffer is not written (lines 186-191, 207);
  * on success: `strncpy` the result string into `result` and set
    `ready = true` (lines 193-207). -/
def worker_process (s : PandasSharedData) (exec : ExecOutcome) :
    PandasSharedData :=
  let s1 := { s with ready := false }
  match exec with
  | ExecOutcome.pyError => { s1 with ready := true }
  | ExecOutcome.retrieveError => { s1 with ready := true }
  | ExecOutcome.ok r => { s1 with result := strncpy_result r, ready := true }

/-- The observable steps of one iteration of the worker main loop
(pg_pandas_worker.c lines 120-209). -/
inductive WorkerEvent
  | pollSleep
  | checkTerminate
  | readReadyFlag
  | copyAndReset
  | runTransformation
  | writeBack
deriving DecidableEq

/-- One iteration of `pg_pandas_worker_main`'s loop as a trace of events,
each annotated with whether an LWLock on the shared slot is held while the
event runs (true = lock held), in source order (pg_pandas_worker.c lines
120-209): `pg_usleep(10000)` with no lock (line 123); the `terminate` check
with no lock (line 126); the `ready` read under the shared lock (lines
130-132).  When `ready` was observed set, the worker then acquires the
exclusive lock (line 138) and, without releasing it, reads the buffers and
resets `ready` (lines 141-145), runs `PyRun_String` (line 174), writes the
result back and sets `ready` (lines 198-207), releasing the lock only at
line 208 (or line 181 on the error path, likewise after the
transformation). -/
def worker_iteration_trace (ready : Bool) : List (Bool × WorkerEvent) :=
  [(false, WorkerEvent.pollSleep),
   (false, WorkerEvent.checkTerminate),
   (true, WorkerEvent.readReadyFlag)]
  ++ (if ready then
        [(true, WorkerEvent.copyAndReset),
         (true, WorkerEvent.runTransformation),
         (true, WorkerEvent.writeBack)]
      else [])

/-- The steps of `_PG_init` in pg_pandas.c, in source order (lines 39-78). -/
inductive InitStep
  | defineCustomIntVariable
  | pqInitSharedMemory
  | checkPreloadLibraries
  | validateParallelRange
  | shmemInitStruct
deriving DecidableEq

/-- The order in which `_PG_init` (pg_pandas.c lines 39-78) performs its
steps: `DefineCustomIntVariable` for `pg_pandas.parallel` (lines 42-51),
the shared-memory setup call `pq_init_shared_memory()` (line 54), the
`shared_preload_libraries` check (lines 56-59), the explicit range check
`pg_pandas_parallel < 1 || pg_pandas_parallel > 16` (lines 61-64), and the
`ShmemInitStruct` allocation of the shared struct (lines 68-70). -/
def pg_init_sequence : List InitStep :=
  [InitStep.defineCustomIntVariable,
   InitStep.pqInitSharedMemory,
   InitStep.checkPreloadLibraries,
   InitStep.validateParallelRange,
   InitStep.shmemInitStruct]

/-- The explicit range check in `_PG_init` (pg_pandas.c lines 61-64):
`pg_pandas.parallel` must lie in 1..16 or an error is raised. -/
def validate_parallel (n : Int) : Bool :=
  decide (1 ≤ n) && decide (n ≤ 16)

/-- Minimum of the GUC range passed to `DefineCustomIntVariable`
(pg_pandas.c line 47). -/
def guc_min_parallel : Int := 1

/-- Maximum of the GUC range passed to `DefineCustomIntVariable`
(pg_pandas.c line 48). -/
def guc_max_parallel : Int := 1024

/-- The five-valued slot state required by the specification (§4.3):
EMPTY, REQUEST_PENDING, CLAIMED, RESPONSE_READY, ERROR.  Modelled from the
spec's words for comparison with the code's boolean `ready` field; the C
sources contain no such enum. -/
inductive SpecSlotState
  | EMPTY
  | REQUEST_PENDING
  | CLAIMED
  | RESPONSE_READY
  | ERROR
deriving DecidableEq, Fintype

/-- The all-zero shared struct produced by
`memset(pandas_shared, 0, sizeof(PandasSharedData))` at first initialization
(pg_pandas.c line 75): zeroed buffers, `ready = false`, `terminate = false`. -/
def zeroState : PandasSharedData :=
  { data := List.replicate DATA_CAPACITY 0
    operation := List.replicate OPERATION_CAPACITY 0
    result := List.replicate RESULT_CAPACITY 0
    ready := false
    terminate := false }

/-- A slot whose `ready` flag is set, as required by the submission path. -/
def readyState : PandasSharedData :=
  { zeroState with ready := true }

/-- The bytes of the string of the spec scenario input, the eleven
characters of the text between brackets with the digits one to five. -/
def inputBytes : List Nat := [91, 49, 44, 50, 44, 51, 44, 52, 44, 53, 93]

/-- A small operation payload (two bytes). -/
def opBytes : List Nat := [111, 112]

/-- The slot state right after a successful submission of `inputBytes` /
`opBytes` into `readyState`. -/
def submittedState : PandasSharedData :=
  submit_ok_state readyState inputBytes opBytes

/-- Helper: a successful submission forces the guard conditions of the C code
and yields exactly the state built at pg_pandas.c lines 140-142. -/
theorem submit_ok_elim (s s' : PandasSharedData) (i o : List Nat)
    (h : pg_pandas_submit s i o = Except.ok s') :
    s.ready = true ∧ i.length < DATA_CAPACITY ∧ o.length < OPERATION_CAPACITY ∧
    s' = submit_ok_state s i o := by
  unfold pg_pandas_submit at h
  split at h
  next hb => exact Except.noConfusion h
  next hb =>
    split at h
    next hd => exact Except.noConfusion h
    next hd =>
      split at h
      next ho => exact Except.noConfusion h
      next ho =>
        refine ⟨?_, by omega, by omega, (Except.ok.inj h).symm⟩
        cases hr : s.ready with
        | false => exact absurd hr hb
        | true => rfl

/-- Helper: the concrete submission of the scenario payload succeeds. -/
theorem submit_scenario_eq :
    pg_pandas_submit readyState inputBytes opBytes = Except.ok submittedState := rfl

/-- C4: after any successful submission, the state the producer left behind
has `ready = false`, and the single, non-looping read of `pg_pandas_fn`
(pg_pandas.c lines 153-160) immediately raises "pg_pandas operation not
completed".  There is no poll loop and no sleep on the producer side: a
valid submission whose worker has not completed at the first read fails
instead of waiting, contradicting the claim. -/
theorem c4_first_read_errors (s s' : PandasSharedData) (i o : List Nat)
    (h : pg_pandas_submit s i o = Except.ok s') :
    pg_pandas_read_result s' = Except.error ReadError.notCompleted := by
  have h4 := (submit_ok_elim s s' i o h).2.2.2
  rw [h4]
  rfl

/-- C4 witness: the concrete scenario submission, read back immediately,
raises the not-completed error. -/
theorem c4_first_read_errors_witness :
    pg_pandas_read_result submittedState = Except.error ReadError.notCompleted :=
  c4_first_read_errors readyState submittedState inputBytes opBytes
    submit_scenario_eq

/-- C9: when no free slot is available (`ready = false`), submission fails
immediately with the worker-busy error (pg_pandas.c lines 114-118),
regardless of the payloads — no blocking, no waiting, and no state is
produced, so no slot is mutated; the error constructor is distinct from the
payload-size errors, so the caller can tell saturation from other failures. -/
theorem c9_saturated_fails_fast (s : PandasSharedData) (i o : List Nat)
    (h : s.ready = false) :
    pg_pandas_submit s i o = Except.error SubmitError.workerBusy ∧
    SubmitError.workerBusy ≠ SubmitError.dataTooLarge ∧
    SubmitError.workerBusy ≠ SubmitError.operationTooLarge := by
  refine ⟨?_, by decide, by decide⟩
  unfold pg_pandas_submit
  rw [h]
  rfl

/-- C9 witness: the zero-initialized slot has no free-slot signal, and the
scenario submission fails fast with the busy error. -/
theorem c9_saturated_fails_fast_witness :
    pg_pandas_submit zeroState inputBytes opBytes
      = Except.error SubmitError.workerBusy ∧
    SubmitError.workerBusy ≠ SubmitError.dataTooLarge ∧
    SubmitError.workerBusy ≠ SubmitError.operationTooLarge :=
  c9_saturated_fails_fast zeroState inputBytes opBytes rfl

/-- C10: the set-returning function fixes `max_calls` to one (pg_pandas.c
line 102); the per-call body returns exactly one row — the call with counter
zero — and that row carries the whole `result` buffer read as a single text
value (pg_pandas.c lines 149-176); every later call returns done. -/
theorem c10_single_row (s : PandasSharedData) :
    srf_max_calls = 1 ∧
    pg_pandas_call s 0 = some (pg_pandas_read_result s) ∧
    (∀ call_cntr : Nat, 1 ≤ call_cntr → pg_pandas_call s call_cntr = none) ∧
    (s.ready = true →
      pg_pandas_call s 0 = some (Except.ok (cstring s.result))) := by
  refine ⟨rfl, rfl, ?_, ?_⟩
  · intro call_cntr hc
    unfold pg_pandas_call
    rw [if_neg (by omega)]
  · intro hready
    unfold pg_pandas_call pg_pandas_read_result
    rw [hready]
    rfl

/-- C10 witness: at a completed slot, call zero yields the single result row
and call one yields done. -/
theorem c10_single_row_witness :
    pg_pandas_call readyState 1 = none ∧
    pg_pandas_call readyState 0
      = some (Except.ok (cstring readyState.result)) := by
  have h := c10_single_row readyState
  exact ⟨h.2.2.1 1 (by omega), h.2.2.2 rfl⟩

/-- C1 counterexample: the slot of the C struct carries its synchronization
state in the boolean `ready` field, which cannot embed the five spec states
(no injective map from `SpecSlotState` into `Bool` exists), and the worker's
failure completion and success completion leave the shared state fields
identical (`ready = true` in both), so the transitions CLAIMED to ERROR and
CLAIMED to RESPONSE_READY of the claimed state machine are not distinct in
the code. -/
theorem c1_state_not_five_valued :
    (¬ ∃ f : SpecSlotState → Bool, Function.Injective f) ∧
    (worker_process readyState ExecOutcome.pyError).ready
      = (worker_process readyState (ExecOutcome.ok [82])).ready := by
  constructor
  · rintro ⟨f, hf⟩
    have hcard : Fintype.card SpecSlotState ≤ Fintype.card Bool :=
      Fintype.card_le_of_injective f hf
    have h5 : Fintype.card SpecSlotState = 5 := rfl
    have h2 : Fintype.card Bool = 2 := rfl
    omega
  · rfl

/-- C1 amended: each slot's synchronization state is the single boolean
`ready` flag shared by both directions — submission requires `ready = true`
and leaves `ready = false` (pg_pandas.c lines 114-142), and every worker
completion, success or failure alike, leaves `ready = true`
(pg_pandas_worker.c lines 180, 207), so the state field never distinguishes
a successful completion from a failed one. -/
theorem c1_boolean_ready_flag (s s' : PandasSharedData) (i o : List Nat)
    (e : ExecOutcome) :
    (pg_pandas_submit s i o = Except.ok s' →
      s.ready = true ∧ s'.ready = false) ∧
    (worker_process s e).ready = true := by
  constructor
  · intro h
    have he := submit_ok_elim s s' i o h
    exact ⟨he.1, by rw [he.2.2.2]; rfl⟩
  · cases e <;> rfl

/-- C1 witness: the scenario submission flips `ready` from true to false,
and a failing worker completion sets it back to true. -/
theorem c1_boolean_ready_flag_witness :
    readyState.ready = true ∧ submittedState.ready = false ∧
    (worker_process readyState ExecOutcome.pyError).ready = true := by
  have h := c1_boolean_ready_flag readyState submittedState inputBytes opBytes
    ExecOutcome.pyError
  exact ⟨(h.1 submit_scenario_eq).1, (h.1 submit_scenario_eq).2, h.2⟩

/-- An input payload of exactly the `data` buffer capacity (8192 bytes). -/
def atCapacityInput : List Nat := List.replicate DATA_CAPACITY 65

/-- C3 counterexample: a payload whose length is exactly the buffer capacity
(8192 bytes) is rejected by the validation of pg_pandas.c line 128
(`data_len >= sizeof(data)`), instead of succeeding as the claim states. -/
theorem c3_at_capacity_rejected :
    pg_pandas_submit readyState atCapacityInput opBytes
      = Except.error SubmitError.dataTooLarge := by
  unfold pg_pandas_submit
  rw [if_neg (by simp [readyState, zeroState])]
  rw [if_pos (by simp [atCapacityInput])]

/-- C3 amended: with a free slot, payloads of length at most capacity minus
one (8191 input bytes, 2047 operation bytes) pass validation and are copied;
a payload of length capacity or more fails with the corresponding size error
— and since both size checks precede both copies in `pg_pandas_submit`
(mirroring pg_pandas.c lines 128-141), a size failure yields an error value
and no successor state, so no slot byte is written. -/
theorem c3_validation_bounds (s : PandasSharedData) (i o : List Nat)
    (hs : s.ready = true) :
    (i.length < DATA_CAPACITY → o.length < OPERATION_CAPACITY →
      pg_pandas_submit s i o = Except.ok (submit_ok_state s i o)) ∧
    (DATA_CAPACITY ≤ i.length →
      pg_pandas_submit s i o = Except.error SubmitError.dataTooLarge) ∧
    (i.length < DATA_CAPACITY → OPERATION_CAPACITY ≤ o.length →
      pg_pandas_submit s i o = Except.error SubmitError.operationTooLarge) := by
  refine ⟨?_, ?_, ?_⟩
  · intro hi ho
    unfold pg_pandas_submit
    rw [if_neg (by simp [hs]), if_neg (by omega), if_neg (by omega)]
  · intro hi
    unfold pg_pandas_submit
    rw [if_neg (by simp [hs]), if_pos hi]
  · intro hi ho
    unfold pg_pandas_submit
    rw [if_neg (by simp [hs]), if_neg (by omega), if_pos ho]

/-- C3 witness: an in-bounds scenario payload passes validation, the
at-capacity payload (exactly 8192 bytes) is rejected with the size error. -/
theorem c3_validation_bounds_witness :
    pg_pandas_submit readyState inputBytes opBytes = Except.ok submittedState ∧
    pg_pandas_submit readyState atCapacityInput opBytes
      = Except.error SubmitError.dataTooLarge := by
  have h1 := c3_validation_bounds readyState inputBytes opBytes rfl
  have h2 := c3_validation_bounds readyState atCapacityInput opBytes rfl
  exact ⟨h1.1 (by simp [inputBytes, DATA_CAPACITY]) (by simp [opBytes, OPERATION_CAPACITY]),
    h2.2.1 (by simp [atCapacityInput])⟩

/-- C6 counterexample: in the iteration of the worker loop that processes a
request, the external transformation (`PyRun_String`, pg_pandas_worker.c
line 174) runs while the exclusive LWLock acquired at line 138 is still
held — the lock is released only afterwards (line 181 or 208) — so a
mutual-exclusion guard is held across the external transformation call. -/
theorem c6_transform_under_lock :
    (true, WorkerEvent.runTransformation) ∈ worker_iteration_trace true := by
  decide

/-- C6 amended: the worker never holds a lock across the polling sleep — in
both the idle and the processing iteration the only sleep event carries no
lock — but it does hold the exclusive lock across the entire external
transformation call. -/
theorem c6_lock_discipline :
    (worker_iteration_trace true).filter
        (fun e => e.2 == WorkerEvent.pollSleep)
      = [(false, WorkerEvent.pollSleep)] ∧
    (worker_iteration_trace false).filter
        (fun e => e.2 == WorkerEvent.pollSleep)
      = [(false, WorkerEvent.pollSleep)] ∧
    (worker_iteration_trace true).filter
        (fun e => e.2 == WorkerEvent.runTransformation)
      = [(true, WorkerEvent.runTransformation)] := by
  decide

/-- C8 counterexample: in the initialization order of `_PG_init`
(pg_pandas.c lines 39-78), the shared-memory setup call
`pq_init_shared_memory()` (line 54) precedes the range validation of
`pg_pandas.parallel` (lines 61-64), so an out-of-range value is not rejected
before shared memory is created. -/
theorem c8_alloc_before_validation :
    pg_init_sequence.indexOf InitStep.pqInitSharedMemory
      < pg_init_sequence.indexOf InitStep.validateParallelRange := by
  decide

/-- C8 amended: the pool size is bounded 1..1024 at GUC definition, and an
explicit startup check rejects values outside 1..16 — but that check runs
after the `pq_init_shared_memory()` call and only before the later
`ShmemInitStruct` allocation. -/
theorem c8_validation_order (n : Int) :
    (validate_parallel n = true ↔ guc_min_parallel ≤ n ∧ n ≤ 16) ∧
    guc_min_parallel = 1 ∧ guc_max_parallel = 1024 ∧
    pg_init_sequence.indexOf InitStep.pqInitSharedMemory
      < pg_init_sequence.indexOf InitStep.validateParallelRange ∧
    pg_init_sequence.indexOf InitStep.validateParallelRange
      < pg_init_sequence.indexOf InitStep.shmemInitStruct := by
  refine ⟨?_, rfl, rfl, by decide, by decide⟩
  unfold validate_parallel guc_min_parallel
  rw [Bool.and_eq_true, decide_eq_true_eq, decide_eq_true_eq]

/-- C8 witness: seventeen workers are out of range for the startup check. -/
theorem c8_validation_order_witness : validate_parallel 17 = false := by
  cases h : validate_parallel 17 with
  | false => rfl
  | true => exact absurd ((c8_validation_order 17).1.mp h).2 (by decide)

/-- The result bytes left in the slot by an earlier, completed request. -/
def staleResult : List Nat := [79, 76, 68]

/-- A slot that finished an earlier request: `ready = true` and the earlier
result string still in the `result` buffer, now holding a new pending
request in its other buffers. -/
def prevCompletedState : PandasSharedData :=
  { readyState with result := strncpy_result staleResult }

/-- C2 counterexample: when the external transformation fails
(`PyRun_String` returns NULL, pg_pandas_worker.c lines 175-183), the worker
writes nothing into the `result` buffer, and it signals completion with the
same `ready = true` it uses for success — so the subsequent read returns
the stale previous result as an ordinary success value, not an
execution-error diagnostic. -/
theorem c2_failure_not_distinguishable :
    (worker_process prevCompletedState ExecOutcome.pyError).result
      = prevCompletedState.result ∧
    (worker_process prevCompletedState ExecOutcome.pyError).ready
      = (worker_process prevCompletedState (ExecOutcome.ok [82])).ready ∧
    pg_pandas_read_result (worker_process prevCompletedState ExecOutcome.pyError)
      = Except.ok (cstring prevCompletedState.result) :=
  ⟨rfl, rfl, rfl⟩

/-- C2 amended: on interpreter failure the worker only logs to the server
log; the slot's `result` buffer is left unchanged, the completion signal is
the same `ready = true` as on success, and the caller's read returns the
stale buffer contents as a successful value — no EXECUTION_ERROR reaches
the caller. -/
theorem c2_failure_logs_only (s : PandasSharedData) :
    (worker_process s ExecOutcome.pyError).result = s.result ∧
    (worker_process s ExecOutcome.pyError).ready = true ∧
    (worker_process s ExecOutcome.retrieveError).result = s.result ∧
    pg_pandas_read_result (worker_process s ExecOutcome.pyError)
      = Except.ok (cstring s.result) :=
  ⟨rfl, rfl, rfl, rfl⟩

/-- Helper: reading a nonzero-byte run followed by a zero byte as a C string
returns exactly the run. -/
theorem takeWhile_ne_zero_replicate (n a : Nat) (h : (a != 0) = true)
    (t : List Nat) :
    (List.replicate n a ++ 0 :: t).takeWhile (fun b => b != 0)
      = List.replicate n a := by
  induction n with
  | zero => simp [List.takeWhile_cons]
  | succ k ih => simp [List.replicate_succ, List.takeWhile_cons, h, ih]

/-- A successful transformation result of 65537 bytes, exceeding the
65536-byte result buffer. -/
def oversizedResult : List Nat := List.replicate (RESULT_CAPACITY + 1) 65

/-- Helper: the length of the oversized result string. -/
theorem oversizedResult_length :
    oversizedResult.length = RESULT_CAPACITY + 1 := by
  show (List.replicate (RESULT_CAPACITY + 1) 65).length = _
  rw [List.length_replicate]

/-- Helper: on a result string at least as long as the usable buffer, the
worker's `strncpy` stores exactly the truncated prefix plus the terminating
zero byte, with no padding. -/
theorem strncpy_result_long (r : List Nat)
    (hr : RESULT_CAPACITY - 1 ≤ r.length) :
    strncpy_result r = r.take (RESULT_CAPACITY - 1) ++ [0] := by
  unfold strncpy_result
  rw [min_eq_right hr, Nat.sub_self, List.replicate_zero, List.append_nil]

/-- C5 counterexample: a successful transformation whose serialized result
exceeds the result buffer capacity is stored as a silently truncated prefix
(the first 65535 bytes, NUL-terminated, pg_pandas_worker.c lines 198-199)
with the ordinary success signal `ready = true` — no truncation-error result
is written in its place. -/
theorem c5_truncated_prefix_stored :
    (worker_process readyState (ExecOutcome.ok oversizedResult)).ready = true ∧
    cstring (worker_process readyState (ExecOutcome.ok oversizedResult)).result
      = List.replicate (RESULT_CAPACITY - 1) 65 ∧
    List.replicate (RESULT_CAPACITY - 1) 65 ≠ oversizedResult := by
  have hres : (worker_process readyState (ExecOutcome.ok oversizedResult)).result
      = strncpy_result oversizedResult := rfl
  have hlong : RESULT_CAPACITY - 1 ≤ oversizedResult.length := by
    rw [oversizedResult_length]
    omega
  refine ⟨rfl, ?_, ?_⟩
  · rw [hres, strncpy_result_long oversizedResult hlong]
    have htake : oversizedResult.take (RESULT_CAPACITY - 1)
        = List.replicate (RESULT_CAPACITY - 1) 65 := by
      show (List.replicate (RESULT_CAPACITY + 1) 65).take (RESULT_CAPACITY - 1) = _
      rw [List.take_replicate, min_eq_left (by omega)]
    rw [htake]
    show (List.replicate (RESULT_CAPACITY - 1) 65 ++ 0 :: []).takeWhile
        (fun b => b != 0) = _
    exact takeWhile_ne_zero_replicate (RESULT_CAPACITY - 1) 65 rfl []
  · intro hEq
    have hlen := congrArg List.length hEq
    rw [List.length_replicate, oversizedResult_length] at hlen
    omega

/-- C5 amended: when the (NUL-free) result string is longer than 65535
bytes, the worker stores its first 65535 bytes followed by a terminating
zero byte — a silent truncation — and completes the slot with the same
`ready = true` signal as any success. -/
theorem c5_silent_truncation (s : PandasSharedData) (r : List Nat)
    (hr : RESULT_CAPACITY - 1 < r.length) :
    (worker_process s (ExecOutcome.ok r)).ready = true ∧
    (worker_process s (ExecOutcome.ok r)).result
      = r.take (RESULT_CAPACITY - 1) ++ [0] := by
  refine ⟨rfl, ?_⟩
  show strncpy_result r = _
  exact strncpy_result_long r (by omega)

/-- C5 witness: the concrete 65537-byte result is stored truncated to its
first 65535 bytes plus the terminator, with the success signal set. -/
theorem c5_silent_truncation_witness :
    (worker_process readyState (ExecOutcome.ok oversizedResult)).ready = true ∧
    (worker_process readyState (ExecOutcome.ok oversizedResult)).result
      = oversizedResult.take (RESULT_CAPACITY - 1) ++ [0] :=
  c5_silent_truncation readyState oversizedResult
    (by rw [oversizedResult_length]; omega)

/-- The first request's input payload, four bytes. -/
def firstInput : List Nat := [65, 65, 65, 65]

/-- The first request's result string, three bytes. -/
def firstResult : List Nat := [82, 69, 83]

/-- The second, unrelated request's input payload, two bytes — shorter than
the first. -/
def secondInput : List Nat := [66, 66]

/-- The slot after submitting the first request into the fresh slot. -/
def afterFirstSubmit : PandasSharedData :=
  submit_ok_state readyState firstInput opBytes

/-- The slot after the worker successfully completed the first request. -/
def afterWorker : PandasSharedData :=
  worker_process afterFirstSubmit (ExecOutcome.ok firstResult)

/-- The slot after the second request was submitted into the reused slot. -/
def afterSecondSubmit : PandasSharedData :=
  submit_ok_state afterWorker secondInput opBytes

/-- C7 counterexample: reusing the slot for a second, shorter request leaves
bytes of the first request's payload observable — after submitting the
two-byte second payload over the four-byte first one, the data buffer starts
with the two new bytes followed by two bytes of the old payload — and the
first request's entire result string is still readable from the untouched
`result` buffer. -/
theorem c7_residual_bleed :
    pg_pandas_submit afterWorker secondInput opBytes
      = Except.ok afterSecondSubmit ∧
    afterSecondSubmit.data.take 4 = [66, 66, 65, 65] ∧
    cstring afterSecondSubmit.result = firstResult := by
  refine ⟨rfl, by decide, by decide⟩

/-- C7 amended: a new submission overwrites only the first `len` bytes of
the `data` and `operation` buffers (no terminator, no clearing) and never
touches the `result` buffer, so every byte beyond the new payload's length
and the whole previous result remain in the reused slot. -/
theorem c7_buffers_not_cleared (s s' : PandasSharedData) (i o : List Nat)
    (h : pg_pandas_submit s i o = Except.ok s') :
    s'.data.drop i.length = s.data.drop i.length ∧
    s'.operation.drop o.length = s.operation.drop o.length ∧
    s'.result = s.result := by
  have he := (submit_ok_elim s s' i o h).2.2.2
  subst he
  refine ⟨?_, ?_, rfl⟩
  · show (memcpy s.data i i.length).drop i.length = _
    unfold memcpy
    exact List.drop_left' (by simp)
  · show (memcpy s.operation o o.length).drop o.length = _
    unfold memcpy
    exact List.drop_left' (by simp)

/-- C7 witness: in the concrete reuse scenario, the old payload bytes past
the new payload's length and the old result bytes persist. -/
theorem c7_buffers_not_cleared_witness :
    afterSecondSubmit.data.drop secondInput.length
      = afterWorker.data.drop secondInput.length ∧
    afterSecondSubmit.result = afterWorker.result := by
  have h := c7_buffers_not_cleared afterWorker afterSecondSubmit secondInput
    opBytes rfl
  exact ⟨h.1, h.2.2⟩

end PgPandas
